import Mathlib

/-!
Verification development for the Iris-Headers repository.

This file gives a shallow embedding of the parts of the code base that the
checked properties are about:

* the reference-counted dual-strength buffer (src/src/IrisBuffer.cpp),
* the SIMD pixel kernels and tile-format conversion (src/src/IrisSIMD.cpp),
* selected enumeration constants (src/include/IrisCodecTypes.hpp).

Machine integers are modelled as Nat with explicit truncation where the code
truncates; byte memory is modelled as functions Nat → Nat; heap allocation is
modelled by an explicit success flag plus a function giving the (arbitrary,
uninitialized) contents of freshly allocated bytes; C++ exceptions and
assertion failures are modelled with Except.  SIMD kernels are parameterized
by the lane count NN of the vector unit, which the code obtains at run time
from the highway library; loops are encoded with an explicit structural fuel
argument that is always initialized large enough to cover every iteration the
C++ loop performs.
-/

namespace IrisSpec

/-- Tile constants from src/include/IrisTypes.hpp lines 63-67. -/
def TILE_PIX_LENGTH : Nat := 256

/-- Pixel area of a tile, 256 * 256 (IrisTypes.hpp line 65). -/
def TILE_PIX_AREA : Nat := 65536

/-- Byte size of a 3-channel tile (IrisTypes.hpp line 66). -/
def TILE_PIX_BYTES_RGB : Nat := 196608

/-- Byte size of a 4-channel tile (IrisTypes.hpp line 67). -/
def TILE_PIX_BYTES_RGBA : Nat := 262144

/-- Buffer reference strength (IrisTypes.hpp lines 158-163). -/
inductive BufferReferenceStrength where
  | REFERENCE_WEAK
  | REFERENCE_STRONG
deriving DecidableEq, Repr

export BufferReferenceStrength (REFERENCE_WEAK REFERENCE_STRONG)

/-- Result flags relevant to the buffer operations (IrisTypes.hpp lines
108-117).  Only the two flags the buffer code produces are modelled. -/
inductive ResultFlag where
  | IRIS_SUCCESS
  | IRIS_FAILURE
deriving DecidableEq, Repr

export ResultFlag (IRIS_SUCCESS IRIS_FAILURE)

/-- State of a __INTERNAL__Buffer: reference strength, capacity and size in
bytes, and the contents of the backing allocation as a byte function. -/
structure IBuffer where
  strength : BufferReferenceStrength
  capacity : Nat
  size : Nat
  data : Nat → Nat

/-- Modelled from the spec: the zero-argument constructor
__INTERNAL__Buffer(REFERENCE_STRONG) (IrisBuffer.cpp lines 66-73) only sets
the strength; the defaults of the remaining members live in IrisBuffer.hpp,
which is not part of the sources.  The spec (section 4.A) says
create_strong() yields an owned, zero-sized buffer, so capacity and size
default to 0; no allocation exists, so the contents function is arbitrary. -/
def Create_strong_buffer : IBuffer :=
  { strength := REFERENCE_STRONG, capacity := 0, size := 0, data := fun _ => 0 }

/-- Constructor __INTERNAL__Buffer(REFERENCE_STRONG, bytes) (IrisBuffer.cpp
lines 74-83): capacity bytes are malloc-ed (contents uninitialized, given by
the garbage parameter).  The size member is not set by the initializer list;
its default 0 is modelled from the spec (create_strong(n) is zero-sized). -/
def Create_strong_buffer_sized (bytes : Nat) (garbage : Nat → Nat) : IBuffer :=
  { strength := REFERENCE_STRONG, capacity := bytes, size := 0, data := garbage }

/-- Constructor __INTERNAL__Buffer(REFERENCE_STRONG, data, bytes)
(IrisBuffer.cpp lines 84-105, strong case): capacity = size = bytes and the
first bytes of the allocation are copied from the source data; bytes beyond
the copied region do not exist in the allocation (malloc of exactly bytes),
modelled by the garbage function. -/
def Copy_strong_buffer_from_data (D : Nat → Nat) (bytes : Nat)
    (garbage : Nat → Nat) : IBuffer :=
  { strength := REFERENCE_STRONG, capacity := bytes, size := bytes,
    data := fun i => if i < bytes then D i else garbage i }

/-- Constructor __INTERNAL__Buffer(REFERENCE_WEAK, data, bytes)
(IrisBuffer.cpp lines 84-105, weak case): the external region is referenced
directly; capacity = size = bytes. -/
def Wrap_weak_buffer_fom_data (D : Nat → Nat) (bytes : Nat) : IBuffer :=
  { strength := REFERENCE_WEAK, capacity := bytes, size := bytes, data := D }

/-- Method available_bytes (IrisBuffer.cpp lines 213-216):
capacity > size ? capacity - size : 0. -/
def available_bytes (b : IBuffer) : Nat :=
  if b.capacity > b.size then b.capacity - b.size else 0

/-- Method change_capacity (IrisBuffer.cpp lines 217-241).  A weak buffer
fails immediately; an unchanged capacity succeeds with no effect; otherwise
realloc is attempted (success given by allocOk).  On realloc success the size
is clamped to the new capacity and the contents are preserved up to the
smaller of the old and new capacity, with fresh bytes uninitialized. -/
def change_capacity (b : IBuffer) (cap : Nat) (allocOk : Bool)
    (fresh : Nat → Nat) : ResultFlag × IBuffer :=
  if b.strength = REFERENCE_WEAK then (IRIS_FAILURE, b)
  else if cap = b.capacity then (IRIS_SUCCESS, b)
  else if allocOk then
    (IRIS_SUCCESS,
      { b with
        size := if b.size < cap then b.size else cap,
        capacity := cap,
        data := fun i => if i < min b.capacity cap then b.data i else fresh i })
  else (IRIS_FAILURE, b)

/-- Method prepare (IrisBuffer.cpp lines 145-149). -/
def prepare (b : IBuffer) (bytes : Nat) (allocOk : Bool)
    (fresh : Nat → Nat) : ResultFlag × IBuffer :=
  change_capacity b (b.capacity + bytes) allocOk fresh

/-- One-argument append (IrisBuffer.cpp lines 150-173): grows the buffer when
the available bytes are insufficient and returns the byte offset the caller
may write at (the C++ returns data + old size, NULL on failure). -/
def append_alloc (b : IBuffer) (S : Nat) (allocOk : Bool)
    (fresh : Nat → Nat) : Option Nat × IBuffer :=
  let OLD := b.size
  if available_bytes b < S then
    let r := change_capacity b (b.capacity + S - available_bytes b) allocOk fresh
    if r.1 = IRIS_FAILURE then (none, r.2)
    else if r.2.capacity < OLD then (none, r.2)
    else (some OLD, { r.2 with size := r.2.size + S })
  else (some OLD, { b with size := b.size + S })

/-- Two-argument append (IrisBuffer.cpp lines 174-199): when the available
bytes are insufficient it calls change_capacity(available_bytes() + S), then
returns IRIS_FAILURE whenever the post-call size is not larger than the old
size; otherwise it memcpy-s the S source bytes at offset old-size and adds S
to the size. -/
def append_data (b : IBuffer) (D : Nat → Nat) (S : Nat) (allocOk : Bool)
    (fresh : Nat → Nat) : ResultFlag × IBuffer :=
  let OLD := b.size
  if available_bytes b < S then
    let r := change_capacity b (available_bytes b + S) allocOk fresh
    if r.1 = IRIS_FAILURE then (IRIS_FAILURE, r.2)
    else if r.2.size ≤ OLD then (IRIS_FAILURE, r.2)
    else (IRIS_SUCCESS,
      { r.2 with
        data := fun i => if OLD ≤ i ∧ i < OLD + S then D (i - OLD) else r.2.data i,
        size := r.2.size + S })
  else (IRIS_SUCCESS,
    { b with
      data := fun i => if OLD ≤ i ∧ i < OLD + S then D (i - OLD) else b.data i,
      size := b.size + S })

/-- Method set_size (IrisBuffer.cpp lines 204-208): assigns the size with no
check against the capacity and returns IRIS_SUCCESS. -/
def set_size (b : IBuffer) (bytes : Nat) : ResultFlag × IBuffer :=
  (IRIS_SUCCESS, { b with size := bytes })

/-- Method shrink_to_fit (IrisBuffer.cpp lines 242-245). -/
def shrink_to_fit (b : IBuffer) (allocOk : Bool)
    (fresh : Nat → Nat) : ResultFlag × IBuffer :=
  change_capacity b b.size allocOk fresh

/-- Outcome of Buffer_write_into_buffer: a thrown std::runtime_error, a null
pointer, or a pointer into the buffer (as a byte offset). -/
inductive WriteIntoOutcome where
  | threw
  | retNull
  | retPtr (offset : Nat)
deriving DecidableEq, Repr

/-- Free function Buffer_write_into_buffer (IrisBuffer.cpp lines 37-54): a
weak buffer whose size is below the request throws; an adequate weak buffer
returns its data pointer unchanged; a strong buffer delegates to the
one-argument append. -/
def Buffer_write_into_buffer (b : IBuffer) (bytes : Nat) (allocOk : Bool)
    (fresh : Nat → Nat) : WriteIntoOutcome × IBuffer :=
  match b.strength with
  | REFERENCE_WEAK =>
      if b.size < bytes then (WriteIntoOutcome.threw, b)
      else (WriteIntoOutcome.retPtr 0, b)
  | REFERENCE_STRONG =>
      let r := append_alloc b bytes allocOk fresh
      match r.1 with
      | none => (WriteIntoOutcome.retNull, r.2)
      | some off => (WriteIntoOutcome.retPtr off, r.2)

/-- Pixel format enumeration (IrisTypes.hpp lines 381-392). -/
inductive Format where
  | FORMAT_UNDEFINED
  | FORMAT_B8G8R8
  | FORMAT_R8G8B8
  | FORMAT_B8G8R8A8
  | FORMAT_R8G8B8A8
deriving DecidableEq, Repr

export Format (FORMAT_UNDEFINED FORMAT_B8G8R8 FORMAT_R8G8B8 FORMAT_B8G8R8A8 FORMAT_R8G8B8A8)

/-!
SIMD kernels (src/src/IrisSIMD.cpp).  A kernel is parameterized by the vector
lane count NN (Lanes(d8) resp. Lanes(d16) in the code, a run-time machine
constant, at least 1).  Byte memory is a function Nat → Nat.  Each loop
iteration writes a contiguous region whose new bytes are given pointwise; the
iteration reads only the source (for the interleaved copy kernels the
iteration order makes this true even for an in-place call, which is why the
expand kernel runs backwards and the shrink kernel forwards).  Loops carry a
structural fuel argument initialized to a bound larger than the number of
iterations the C++ loop performs (the loop counter strictly advances each
iteration), so the fuel-exhausted branch is never taken for NN at least 1.
-/

/-- One vector iteration of EXPAND_TILE_ADD_ALPHA_8bit (IrisSIMD.cpp lines
77-80): LoadInterleaved3 of NN pixels at src + i*3 and StoreInterleaved4 with
alpha 0xFF at dst + i*4, so pixels i..i+NN-1 of dst get rgb from src and
alpha 255. -/
def expandChunk (src : Nat → Nat) (i NN : Nat) (dst : Nat → Nat) : Nat → Nat :=
  fun b =>
    if i ≤ b / 4 ∧ b / 4 < i + NN then
      (if b % 4 = 3 then 255 else src (3 * (b / 4) + b % 4))
    else dst b

/-- One scalar iteration of EXPAND_TILE_ADD_ALPHA_8bit (IrisSIMD.cpp lines
81-84): memcpy of 3 bytes for pixel p plus alpha 0xFF. -/
def expandPixel (src : Nat → Nat) (p : Nat) (dst : Nat → Nat) : Nat → Nat :=
  fun b =>
    if b / 4 = p then
      (if b % 4 = 3 then 255 else src (3 * p + b % 4))
    else dst b

/-- Vector loop of EXPAND_TILE_ADD_ALPHA_8bit: for (; i - N >= 0; i -= N),
returning the final memory and the final value of i. -/
def expandVecLoop (NN : Nat) (src : Nat → Nat) :
    Nat → Nat → (Nat → Nat) → ((Nat → Nat) × Nat)
  | 0, i, dst => (dst, i)
  | fuel + 1, i, dst =>
      if NN ≤ i then expandVecLoop NN src fuel (i - NN) (expandChunk src i NN dst)
      else (dst, i)

/-- Scalar loop of EXPAND_TILE_ADD_ALPHA_8bit: for (; i >= 0; --i), starting
at the i left by the vector loop (which is nonnegative). -/
def expandScalarLoop (src : Nat → Nat) : Nat → (Nat → Nat) → (Nat → Nat)
  | 0, dst => expandPixel src 0 dst
  | i + 1, dst => expandScalarLoop src i (expandPixel src (i + 1) dst)

/-- Kernel EXPAND_TILE_ADD_ALPHA_8bit (IrisSIMD.cpp lines 68-85).  The loop
counter starts at TILE_PIX_AREA - (NN + 1). -/
def EXPAND_TILE_ADD_ALPHA_8bit (NN : Nat) (src dst : Nat → Nat) : Nat → Nat :=
  let i0 := TILE_PIX_AREA - (NN + 1)
  let r := expandVecLoop NN src (i0 + 1) i0 dst
  expandScalarLoop src r.2 r.1

/-- One vector iteration of SHRINK_TILE_RM_ALPHA_8bit (IrisSIMD.cpp lines
94-96): LoadInterleaved4 of NN pixels at src + i*4 and StoreInterleaved3 at
dst + i*3, dropping the alpha lane. -/
def shrinkChunk (src : Nat → Nat) (i NN : Nat) (dst : Nat → Nat) : Nat → Nat :=
  fun b =>
    if i ≤ b / 3 ∧ b / 3 < i + NN then src (4 * (b / 3) + b % 3)
    else dst b

/-- One scalar iteration of SHRINK_TILE_RM_ALPHA_8bit (IrisSIMD.cpp lines
97-98): memcpy of 3 bytes for pixel p. -/
def shrinkPixel (src : Nat → Nat) (p : Nat) (dst : Nat → Nat) : Nat → Nat :=
  fun b =>
    if b / 3 = p then src (4 * p + b % 3)
    else dst b

/-- Vector loop of SHRINK_TILE_RM_ALPHA_8bit: for (; i + N < TILE_PIX_AREA;
i += N). -/
def shrinkVecLoop (NN : Nat) (src : Nat → Nat) :
    Nat → Nat → (Nat → Nat) → ((Nat → Nat) × Nat)
  | 0, i, dst => (dst, i)
  | fuel + 1, i, dst =>
      if i + NN < TILE_PIX_AREA then
        shrinkVecLoop NN src fuel (i + NN) (shrinkChunk src i NN dst)
      else (dst, i)

/-- Scalar loop of SHRINK_TILE_RM_ALPHA_8bit: for (; i < TILE_PIX_AREA; ++i). -/
def shrinkScalarLoop (src : Nat → Nat) : Nat → Nat → (Nat → Nat) → (Nat → Nat)
  | 0, _, dst => dst
  | fuel + 1, i, dst =>
      if i < TILE_PIX_AREA then shrinkScalarLoop src fuel (i + 1) (shrinkPixel src i dst)
      else dst

/-- Kernel SHRINK_TILE_RM_ALPHA_8bit (IrisSIMD.cpp lines 86-100). -/
def SHRINK_TILE_RM_ALPHA_8bit (NN : Nat) (src dst : Nat → Nat) : Nat → Nat :=
  let r := shrinkVecLoop NN src TILE_PIX_AREA 0 dst
  shrinkScalarLoop src TILE_PIX_AREA r.2 r.1

/-- One vector iteration of SWAP_TILE_3_CHANNELS_0_2_8bit (IrisSIMD.cpp lines
107-109): LoadInterleaved3 of NN pixels at byte i, store with lanes 0 and 2
exchanged. -/
def swap3Chunk (s : Nat → Nat) (i NN : Nat) : Nat → Nat :=
  fun b =>
    if i ≤ b ∧ b < i + 3 * NN then
      (if (b - i) % 3 = 0 then s (b + 2)
       else if (b - i) % 3 = 2 then s (b - 2)
       else s b)
    else s b

/-- One scalar iteration of SWAP_TILE_3_CHANNELS_0_2_8bit (IrisSIMD.cpp lines
110-114): read bytes i..i+2, then write byte i := old byte i+2 and byte
i+2 := old byte i. -/
def swap3PixelScalar (s : Nat → Nat) (i : Nat) : Nat → Nat :=
  fun b => if b = i then s (i + 2) else if b = i + 2 then s i else s b

/-- Vector loop of SWAP_TILE_3_CHANNELS_0_2_8bit: for (; i + N <
TILE_PIX_AREA * 3; i += N * 3). -/
def swap3VecLoop (NN : Nat) : Nat → Nat → (Nat → Nat) → ((Nat → Nat) × Nat)
  | 0, i, s => (s, i)
  | fuel + 1, i, s =>
      if i + NN < TILE_PIX_AREA * 3 then swap3VecLoop NN fuel (i + NN * 3) (swap3Chunk s i NN)
      else (s, i)

/-- Scalar loop of SWAP_TILE_3_CHANNELS_0_2_8bit: for (; i < TILE_PIX_AREA *
3; i += 3). -/
def swap3ScalarLoop : Nat → Nat → (Nat → Nat) → (Nat → Nat)
  | 0, _, s => s
  | fuel + 1, i, s =>
      if i < TILE_PIX_AREA * 3 then swap3ScalarLoop fuel (i + 3) (swap3PixelScalar s i)
      else s

/-- Kernel SWAP_TILE_3_CHANNELS_0_2_8bit (IrisSIMD.cpp lines 101-115),
in place on s. -/
def SWAP_TILE_3_CHANNELS_0_2_8bit (NN : Nat) (s : Nat → Nat) : Nat → Nat :=
  let r := swap3VecLoop NN (TILE_PIX_AREA * 3) 0 s
  swap3ScalarLoop (TILE_PIX_AREA * 3) r.2 r.1

/-- One vector iteration of SWAP_TILE_4_CHANNELS_0_2_8bit (IrisSIMD.cpp lines
122-124): LoadInterleaved4 of NN pixels at byte i, store with lanes 0 and 2
exchanged and alpha kept. -/
def swap4Chunk (s : Nat → Nat) (i NN : Nat) : Nat → Nat :=
  fun b =>
    if i ≤ b ∧ b < i + 4 * NN then
      (if (b - i) % 4 = 0 then s (b + 2)
       else if (b - i) % 4 = 2 then s (b - 2)
       else s b)
    else s b

/-- One scalar iteration of SWAP_TILE_4_CHANNELS_0_2_8bit (IrisSIMD.cpp lines
125-129): exchanges bytes i and i+2 of the pixel at byte i. -/
def swap4PixelScalar (s : Nat → Nat) (i : Nat) : Nat → Nat :=
  fun b => if b = i then s (i + 2) else if b = i + 2 then s i else s b

/-- Vector loop of SWAP_TILE_4_CHANNELS_0_2_8bit: for (; i + N <
TILE_PIX_AREA * 4; i += N * 4). -/
def swap4VecLoop (NN : Nat) : Nat → Nat → (Nat → Nat) → ((Nat → Nat) × Nat)
  | 0, i, s => (s, i)
  | fuel + 1, i, s =>
      if i + NN < TILE_PIX_AREA * 4 then swap4VecLoop NN fuel (i + NN * 4) (swap4Chunk s i NN)
      else (s, i)

/-- Scalar loop of SWAP_TILE_4_CHANNELS_0_2_8bit: for (; i < TILE_PIX_AREA *
4; i += 4). -/
def swap4ScalarLoop : Nat → Nat → (Nat → Nat) → (Nat → Nat)
  | 0, _, s => s
  | fuel + 1, i, s =>
      if i < TILE_PIX_AREA * 4 then swap4ScalarLoop fuel (i + 4) (swap4PixelScalar s i)
      else s

/-- Kernel SWAP_TILE_4_CHANNELS_0_2_8bit (IrisSIMD.cpp lines 116-130),
in place on s. -/
def SWAP_TILE_4_CHANNELS_0_2_8bit (NN : Nat) (s : Nat → Nat) : Nat → Nat :=
  let r := swap4VecLoop NN (TILE_PIX_AREA * 4) 0 s
  swap4ScalarLoop (TILE_PIX_AREA * 4) r.2 r.1

/-- Bits-per-pixel classification used by the two switch statements of
Convert_tile_format (IrisSIMD.cpp lines 342-371): none models the thrown
std::runtime_error for FORMAT_UNDEFINED; the other four enum values give 3
or 4 (the default: throw branch for unsupported bpp is unreachable over the
five enum values of Format). -/
def bppOfFormat : Format → Option Nat
  | FORMAT_UNDEFINED => none
  | FORMAT_B8G8R8 => some 3
  | FORMAT_R8G8B8 => some 3
  | FORMAT_B8G8R8A8 => some 4
  | FORMAT_R8G8B8A8 => some 4

/-- Task bit TASK_EXPAND_ALPHA from the channel-count switch
(IrisSIMD.cpp lines 376-394): the source case list is FORMAT_UNDEFINED,
FORMAT_B8G8R8, FORMAT_R8G8B8 and the destination case list is
FORMAT_B8G8R8A8, FORMAT_R8G8B8A8. -/
def taskExpandAlpha (s d : Format) : Bool :=
  match s, d with
  | FORMAT_UNDEFINED, FORMAT_B8G8R8A8 | FORMAT_UNDEFINED, FORMAT_R8G8B8A8
  | FORMAT_B8G8R8, FORMAT_B8G8R8A8 | FORMAT_B8G8R8, FORMAT_R8G8B8A8
  | FORMAT_R8G8B8, FORMAT_B8G8R8A8 | FORMAT_R8G8B8, FORMAT_R8G8B8A8 => true
  | _, _ => false

/-- Task bit TASK_STRIP_ALPHA from the channel-count switch
(IrisSIMD.cpp lines 376-394). -/
def taskStripAlpha (s d : Format) : Bool :=
  match s, d with
  | FORMAT_B8G8R8A8, FORMAT_B8G8R8 | FORMAT_B8G8R8A8, FORMAT_R8G8B8
  | FORMAT_R8G8B8A8, FORMAT_B8G8R8 | FORMAT_R8G8B8A8, FORMAT_R8G8B8 => true
  | _, _ => false

/-- Task bit TASK_SWAP_0_2 from the channel-ordering switch
(IrisSIMD.cpp lines 396-414). -/
def taskSwap02 (s d : Format) : Bool :=
  match s, d with
  | FORMAT_UNDEFINED, FORMAT_R8G8B8 | FORMAT_UNDEFINED, FORMAT_R8G8B8A8
  | FORMAT_B8G8R8, FORMAT_R8G8B8 | FORMAT_B8G8R8, FORMAT_R8G8B8A8
  | FORMAT_B8G8R8A8, FORMAT_R8G8B8 | FORMAT_B8G8R8A8, FORMAT_R8G8B8A8
  | FORMAT_R8G8B8, FORMAT_B8G8R8 | FORMAT_R8G8B8, FORMAT_B8G8R8A8
  | FORMAT_R8G8B8A8, FORMAT_B8G8R8 | FORMAT_R8G8B8A8, FORMAT_B8G8R8A8 => true
  | _, _ => false

/-- Free function Convert_tile_format (IrisSIMD.cpp lines 315-444).  The
returned Except models the thrown std::runtime_error for an undefined
format.  The garbage function gives the uninitialized contents of a freshly
malloc-ed destination; odstAliasesSrc says whether a supplied destination
buffer shares the data pointer of the source (the src->data() != dst->data()
test before the memcpy; a freshly created destination never aliases).  The
expand and shrink kernels read only from the source memory even when run in
place (which is what their iteration directions are for), so applying them
to the source contents function is exact. -/
def Convert_tile_format (NN : Nat) (src : IBuffer) (s_fmt d_fmt : Format)
    (odst : Option IBuffer) (garbage : Nat → Nat) (odstAliasesSrc : Bool) :
    Except String IBuffer :=
  if s_fmt = d_fmt then
    Except.ok
      (match odst with
       | none => { src with size := src.size }
       | some d =>
           if d.capacity < src.size then { src with size := src.size }
           else { d with
                  data := fun i => if i < src.size then src.data i else d.data i,
                  size := src.size })
  else
    match bppOfFormat s_fmt with
    | none => Except.error "Convert_tile_format failed due to undefined source format"
    | some s_bpp =>
      match bppOfFormat d_fmt with
      | none => Except.error "Convert_tile_format failed due to undefined source format"
      | some d_bpp =>
        let dstAlias : IBuffer × Bool :=
          match odst with
          | none => (Create_strong_buffer_sized (TILE_PIX_AREA * d_bpp) garbage, false)
          | some d =>
              if d.capacity < TILE_PIX_AREA * d_bpp then
                (Create_strong_buffer_sized (TILE_PIX_AREA * d_bpp) garbage, false)
              else (d, odstAliasesSrc)
        let dst := dstAlias.1
        let data1 : Nat → Nat :=
          if taskExpandAlpha s_fmt d_fmt then
            EXPAND_TILE_ADD_ALPHA_8bit NN src.data dst.data
          else if taskStripAlpha s_fmt d_fmt then
            SHRINK_TILE_RM_ALPHA_8bit NN src.data dst.data
          else if dstAlias.2 then dst.data
          else fun i => if i < dst.size then src.data i else dst.data i
        let data2 : Nat → Nat :=
          if taskSwap02 s_fmt d_fmt then
            match d_bpp with
            | 3 => SWAP_TILE_3_CHANNELS_0_2_8bit NN data1
            | 4 => SWAP_TILE_4_CHANNELS_0_2_8bit NN data1
            | _ => data1
          else data1
        Except.ok { dst with data := data2, size := TILE_PIX_AREA * d_bpp }

/-- One vector iteration of DOWNSAMPLE_INTO_TILE_2X_AVG (IrisSIMD.cpp lines
158-178): for output bytes orow[x + j], j < NN, the kernel sums the four
source bytes row0[2x + j], row0[2x + CH + j], row1[2x + j], row1[2x + CH + j]
(as loaded by the four memcpy-s into the aligned buffer), adds the rounding
bias 2 and shifts right by 2.  The values are at most (4 * 255 + 2) >> 2 =
255, so the saturating DemoteTo never clips. -/
def ds2xChunk (CH NN : Nat) (src : Nat → Nat) (y base x : Nat)
    (dst : Nat → Nat) : Nat → Nat :=
  fun b =>
    if base + x ≤ b ∧ b < base + x + NN then
      let j := b - (base + x)
      (src ((2 * y) * (TILE_PIX_LENGTH * CH) + (2 * x + j)) +
       src ((2 * y) * (TILE_PIX_LENGTH * CH) + (2 * x + CH + j)) +
       src ((2 * y + 1) * (TILE_PIX_LENGTH * CH) + (2 * x + j)) +
       src ((2 * y + 1) * (TILE_PIX_LENGTH * CH) + (2 * x + CH + j)) + 2) / 4
    else dst b

/-- One scalar-cleanup iteration of DOWNSAMPLE_INTO_TILE_2X_AVG (IrisSIMD.cpp
lines 181-187): for each channel c < CH, orow[x + c] gets the box sum of the
2x2 source pixels plus 2, shifted right by 2 and cast to uint8_t. -/
def ds2xScalarWrite (CH : Nat) (src : Nat → Nat) (y base x : Nat)
    (dst : Nat → Nat) : Nat → Nat :=
  fun b =>
    if base + x ≤ b ∧ b < base + x + CH then
      let c := b - (base + x)
      ((src ((2 * y) * (TILE_PIX_LENGTH * CH) + (2 * x + c)) +
        src ((2 * y) * (TILE_PIX_LENGTH * CH) + (2 * x + CH + c)) +
        src ((2 * y + 1) * (TILE_PIX_LENGTH * CH) + (2 * x + c)) +
        src ((2 * y + 1) * (TILE_PIX_LENGTH * CH) + (2 * x + CH + c)) + 2) / 4) % 256
    else dst b

/-- Vector loop over x of one output row of DOWNSAMPLE_INTO_TILE_2X_AVG:
for (; x * N < 128 * CH - N; x += N), returning the final memory and final
x. -/
def ds2xVecLoop (CH NN : Nat) (src : Nat → Nat) (y base : Nat) :
    Nat → Nat → (Nat → Nat) → ((Nat → Nat) × Nat)
  | 0, x, dst => (dst, x)
  | fuel + 1, x, dst =>
      if x * NN < 128 * CH - NN then
        ds2xVecLoop CH NN src y base fuel (x + NN) (ds2xChunk CH NN src y base x dst)
      else (dst, x)

/-- Scalar-cleanup loop over x of one output row of
DOWNSAMPLE_INTO_TILE_2X_AVG: for (; x < 128 * CH; x += CH). -/
def ds2xScalarLoop (CH : Nat) (src : Nat → Nat) (y base : Nat) :
    Nat → Nat → (Nat → Nat) → (Nat → Nat)
  | 0, _, dst => dst
  | fuel + 1, x, dst =>
      if x < 128 * CH then
        ds2xScalarLoop CH src y base fuel (x + CH) (ds2xScalarWrite CH src y base x dst)
      else dst

/-- One y iteration of DOWNSAMPLE_INTO_TILE_2X_AVG (IrisSIMD.cpp lines
152-188): base is the byte offset of orow = dst + (y + o_y) * stride +
o_x * CH. -/
def ds2xRow (CH NN : Nat) (src : Nat → Nat) (o_y o_x y : Nat)
    (dst : Nat → Nat) : Nat → Nat :=
  let base := (y + o_y) * (TILE_PIX_LENGTH * CH) + o_x * CH
  let r := ds2xVecLoop CH NN src y base (128 * CH) 0 dst
  ds2xScalarLoop CH src y base (128 * CH) r.2 r.1

/-- Outer loop of DOWNSAMPLE_INTO_TILE_2X_AVG: for (y = 0; y < 128; ++y). -/
def ds2xYLoop (CH NN : Nat) (src : Nat → Nat) (o_y o_x : Nat) :
    Nat → Nat → (Nat → Nat) → (Nat → Nat)
  | 0, _, dst => dst
  | count + 1, y, dst =>
      ds2xYLoop CH NN src o_y o_x count (y + 1) (ds2xRow CH NN src o_y o_x y dst)

/-- Kernel DOWNSAMPLE_INTO_TILE_2X_AVG (IrisSIMD.cpp lines 132-190).  The
sub-region origin offsets o_y = s_y << 7 and o_x = s_x << 7 are stored in
uint8_t, hence the truncation modulo 256. -/
def DOWNSAMPLE_INTO_TILE_2X_AVG (CH NN : Nat) (src dst : Nat → Nat)
    (s_y s_x : Nat) : Nat → Nat :=
  ds2xYLoop CH NN src ((s_y * 128) % 256) ((s_x * 128) % 256) 128 0 dst

/-- Entry point Downsample_into_tile_2x_avg (IrisSIMD.cpp lines 446-458).
The two guard assertions check size <= TILE_PIX_AREA * channels for source
and destination (a failed assert aborts, modelled as an error); the channel
switch throws on counts other than 3 and 4. -/
def Downsample_into_tile_2x_avg (NN : Nat) (src dst : IBuffer)
    (sub_y sub_x channels : Nat) : Except String IBuffer :=
  if src.size ≤ TILE_PIX_AREA * channels then
    if dst.size ≤ TILE_PIX_AREA * channels then
      match channels with
      | 3 => Except.ok
          { dst with data := DOWNSAMPLE_INTO_TILE_2X_AVG 3 NN src.data dst.data sub_y sub_x }
      | 4 => Except.ok
          { dst with data := DOWNSAMPLE_INTO_TILE_2X_AVG 4 NN src.data dst.data sub_y sub_x }
      | _ => Except.error "Downsample_into_tile_2x_avg Unsupported channel count"
    else Except.error "Insufficiently sized destination tile for 2x downsample"
  else Except.error "Insufficiently sized source tile for 2x downsample"

/-- Assertion guards and channel dispatch of Downsample_into_tile_4x_avg
(IrisSIMD.cpp lines 459-471): the same size <= TILE_PIX_AREA * channels
asserts followed by the channel switch.  The value returned in the ok case
is the channel count the dispatched 4x kernel would run with; the kernel
body itself is outside the properties checked here, which concern only
whether a call passes the guards. -/
def Downsample_into_tile_4x_avg_guard (src dst : IBuffer)
    (channels : Nat) : Except String Nat :=
  if src.size ≤ TILE_PIX_AREA * channels then
    if dst.size ≤ TILE_PIX_AREA * channels then
      match channels with
      | 3 => Except.ok 3
      | 4 => Except.ok 4
      | _ => Except.error "Downsample_into_tile_4x_avg Unsupported channel count"
    else Except.error "Insufficiently sized destination tile for 4x downsample"
  else Except.error "Insufficiently sized source tile for 4x downsample"

/-- Specification reference for the 2x box filter, written from the spec
text (section 4.B and scenario 4): the output pixel (y, px), channel c, of
the downsampled sub-region is the sum of the corresponding 2x2 block of
source pixels in that channel, plus the rounding bias 2, shifted right by
2.  This is the comparison definition for the downsampler claim; it is
derived from the words of the spec, not from the code. -/
def spec_box_filter_2x (CH : Nat) (src : Nat → Nat) (y px c : Nat) : Nat :=
  (src ((2 * y) * (TILE_PIX_LENGTH * CH) + (2 * px) * CH + c) +
   src ((2 * y) * (TILE_PIX_LENGTH * CH) + (2 * px + 1) * CH + c) +
   src ((2 * y + 1) * (TILE_PIX_LENGTH * CH) + (2 * px) * CH + c) +
   src ((2 * y + 1) * (TILE_PIX_LENGTH * CH) + (2 * px + 1) * CH + c) + 2) / 4

/-- Truth of an Except result from the conversion and downsampling
functions. -/
def convOk (e : Except String IBuffer) : Bool :=
  match e with
  | Except.ok _ => true
  | Except.error _ => false

/-- Contents of the buffer produced by a conversion or downsampling call
(the zero function when the call failed). -/
def convData (e : Except String IBuffer) : Nat → Nat :=
  match e with
  | Except.ok b => b.data
  | Except.error _ => fun _ => 0

/-- Size of the buffer produced by a conversion call (0 when the call
failed). -/
def convSize (e : Except String IBuffer) : Nat :=
  match e with
  | Except.ok b => b.size
  | Except.error _ => 0

/-- Enumerator CACHE_ACCESS_COMPRESS_TILE of CacheDataAccess
(IrisCodecTypes.hpp lines 219-223). -/
def CACHE_ACCESS_COMPRESS_TILE : Nat := 0

/-- Enumerator CACHE_ACCESS_DECOMPRESS_TILE of CacheDataAccess
(IrisCodecTypes.hpp lines 219-223). -/
def CACHE_ACCESS_DECOMPRESS_TILE : Nat := 0

/-- Enumerator CACHE_ACCESS_DIRECT_NO_CODEC of CacheDataAccess
(IrisCodecTypes.hpp lines 219-223). -/
def CACHE_ACCESS_DIRECT_NO_CODEC : Nat := 1

/-- Enumerator ORIENTATION_0 of ImageOrientation (IrisCodecTypes.hpp lines
127-135). -/
def ORIENTATION_0 : Nat := 0x0000

/-- Enumerator ORIENTATION_90 of ImageOrientation (IrisCodecTypes.hpp lines
127-135). -/
def ORIENTATION_90 : Nat := 0x55A0

/-- Enumerator ORIENTATION_180 of ImageOrientation (IrisCodecTypes.hpp lines
127-135). -/
def ORIENTATION_180 : Nat := 0x59A0

/-- Enumerator ORIENTATION_270 of ImageOrientation (IrisCodecTypes.hpp lines
127-135). -/
def ORIENTATION_270 : Nat := 0x5C38

/-- Value of an IEEE 754 half-precision (binary16) bit pattern as a rational
number: sign bit 15, five exponent bits with bias 15, ten mantissa bits.
Exponent 0 encodes zero and subnormals, exponent 31 encodes infinities and
NaNs (none, so not representable as a rational). -/
def half_bits_to_rat (n : Nat) : Option Rat :=
  let sgn : Rat := if (n / 32768) % 2 = 1 then -1 else 1
  let e : Nat := (n / 1024) % 32
  let m : Nat := n % 1024
  if e = 31 then none
  else if e = 0 then some (sgn * ((m : Rat) / 1024) / 2 ^ 14)
  else some (sgn * (1 + (m : Rat) / 1024) * 2 ^ e / 2 ^ 15)

/-- Truth of an Except result from the 4x downsample guard model. -/
def guardOk (e : Except String Nat) : Bool :=
  match e with
  | Except.ok _ => true
  | Except.error _ => false

/-- Round trip of Convert_tile_format through the channel swap, with no
optional destination supplied on either call, so each call allocates a
fresh destination buffer (uninitialized contents g1 resp. g2). -/
def c4RoundTrip (NN : Nat) (b : IBuffer) (g1 g2 : Nat → Nat) :
    Except String IBuffer :=
  match Convert_tile_format NN b FORMAT_R8G8B8A8 FORMAT_B8G8R8A8 none g1 false with
  | Except.error e => Except.error e
  | Except.ok c1 => Convert_tile_format NN c1 FORMAT_B8G8R8A8 FORMAT_R8G8B8A8 none g2 false

/-- Buffers reachable by the public buffer operations when every set_size
call keeps the requested size within the capacity current at the time of
the call.  The allocation-success flags and fresh-byte contents are
arbitrary at every step. -/
inductive ReachableOK : IBuffer → Prop where
  | create0 : ReachableOK Create_strong_buffer
  | createN (n : Nat) (g : Nat → Nat) : ReachableOK (Create_strong_buffer_sized n g)
  | copyFrom (D : Nat → Nat) (n : Nat) (g : Nat → Nat) :
      ReachableOK (Copy_strong_buffer_from_data D n g)
  | wrapWeak (D : Nat → Nat) (n : Nat) : ReachableOK (Wrap_weak_buffer_fom_data D n)
  | app1 (b : IBuffer) (S : Nat) (ok : Bool) (fr : Nat → Nat) :
      ReachableOK b → ReachableOK (append_alloc b S ok fr).2
  | app2 (b : IBuffer) (D : Nat → Nat) (S : Nat) (ok : Bool) (fr : Nat → Nat) :
      ReachableOK b → ReachableOK (append_data b D S ok fr).2
  | setSize (b : IBuffer) (n : Nat) :
      ReachableOK b → n ≤ b.capacity → ReachableOK (set_size b n).2
  | shrink (b : IBuffer) (ok : Bool) (fr : Nat → Nat) :
      ReachableOK b → ReachableOK (shrink_to_fit b ok fr).2
  | chCap (b : IBuffer) (c : Nat) (ok : Bool) (fr : Nat → Nat) :
      ReachableOK b → ReachableOK (change_capacity b c ok fr).2
  | writeInto (b : IBuffer) (n : Nat) (ok : Bool) (fr : Nat → Nat) :
      ReachableOK b → ReachableOK (Buffer_write_into_buffer b n ok fr).2

/-!
Theorems.  Helper lemmas come first; the claim theorems, their witnesses and
the counterexamples follow, one group per claim.
-/

lemma available_bytes_le (b : IBuffer) : available_bytes b ≤ b.capacity := by
  unfold available_bytes
  split <;> omega

lemma change_capacity_size_le (b : IBuffer) (c : Nat) (ok : Bool) (fr : Nat → Nat) :
    (change_capacity b c ok fr).2.size ≤ b.size := by
  unfold change_capacity
  split
  · exact le_rfl
  split
  · exact le_rfl
  split
  · simp only
    split <;> omega
  · exact le_rfl

lemma change_capacity_inv (b : IBuffer) (c : Nat) (ok : Bool) (fr : Nat → Nat)
    (h : b.size ≤ b.capacity) :
    (change_capacity b c ok fr).2.size ≤ (change_capacity b c ok fr).2.capacity := by
  unfold change_capacity
  split
  · exact h
  split
  · exact h
  split
  · simp only
    split <;> omega
  · exact h

lemma change_capacity_cases (b : IBuffer) (c : Nat) (ok : Bool) (fr : Nat → Nat) :
    change_capacity b c ok fr = (IRIS_FAILURE, b) ∨
    (c = b.capacity ∧ change_capacity b c ok fr = (IRIS_SUCCESS, b)) ∨
    ((change_capacity b c ok fr).1 = IRIS_SUCCESS ∧
      (change_capacity b c ok fr).2.capacity = c ∧
      (change_capacity b c ok fr).2.size = if b.size < c then b.size else c) := by
  unfold change_capacity
  split
  · exact Or.inl rfl
  split
  · next hc => exact Or.inr (Or.inl ⟨hc, rfl⟩)
  split
  · exact Or.inr (Or.inr ⟨rfl, rfl, rfl⟩)
  · exact Or.inl rfl

lemma change_capacity_weak (b : IBuffer) (c : Nat) (ok : Bool) (fr : Nat → Nat)
    (hW : b.strength = REFERENCE_WEAK) :
    change_capacity b c ok fr = (IRIS_FAILURE, b) := by
  unfold change_capacity
  rw [if_pos hW]

lemma append_alloc_inv (b : IBuffer) (S : Nat) (ok : Bool) (fr : Nat → Nat)
    (h : b.size ≤ b.capacity) :
    (append_alloc b S ok fr).2.size ≤ (append_alloc b S ok fr).2.capacity := by
  have hAvLe := available_bytes_le b
  unfold append_alloc
  simp only
  split
  · next hAv =>
    split
    · exact change_capacity_inv b _ ok fr h
    · next hFail =>
      split
      · exact change_capacity_inv b _ ok fr h
      · next hCap =>
        simp only
        rcases change_capacity_cases b (b.capacity + S - available_bytes b) ok fr
          with hEq | ⟨hc, hEq⟩ | ⟨-, hcap2, hsize2⟩
        · rw [hEq] at hFail
          exact absurd rfl hFail
        · -- the no-op success case would force S = available_bytes b,
          -- contradicting the growth condition
          omega
        · rw [hcap2, hsize2]
          have hA : available_bytes b = b.capacity - b.size ∨
              (available_bytes b = 0 ∧ b.capacity ≤ b.size) := by
            unfold available_bytes
            split
            · exact Or.inl rfl
            · exact Or.inr ⟨rfl, by omega⟩
          rcases hA with hA | ⟨hA, hle⟩ <;> rw [hA] at hAv ⊢ <;> (split <;> omega)
  · next hAv =>
    simp only
    unfold available_bytes at hAv
    split at hAv <;> omega

lemma append_data_inv (b : IBuffer) (D : Nat → Nat) (S : Nat) (ok : Bool)
    (fr : Nat → Nat) (h : b.size ≤ b.capacity) :
    (append_data b D S ok fr).2.size ≤ (append_data b D S ok fr).2.capacity := by
  unfold append_data
  simp only
  split
  · next hAv =>
    split
    · exact change_capacity_inv b _ ok fr h
    · next hFail =>
      split
      · exact change_capacity_inv b _ ok fr h
      · next hGt =>
        -- unreachable: change_capacity never increases the size
        have hle := change_capacity_size_le b (available_bytes b + S) ok fr
        omega
  · next hAv =>
    simp only
    unfold available_bytes at hAv
    split at hAv <;> omega

lemma write_into_weak (b : IBuffer) (n : Nat) (ok : Bool) (fr : Nat → Nat)
    (hW : b.strength = REFERENCE_WEAK) :
    (Buffer_write_into_buffer b n ok fr).2 = b := by
  unfold Buffer_write_into_buffer
  rw [hW]
  simp only
  split <;> rfl

lemma write_into_strong (b : IBuffer) (n : Nat) (ok : Bool) (fr : Nat → Nat)
    (hS : b.strength = REFERENCE_STRONG) :
    (Buffer_write_into_buffer b n ok fr).2 = (append_alloc b n ok fr).2 := by
  unfold Buffer_write_into_buffer
  rw [hS]
  simp only
  rcases hr : (append_alloc b n ok fr).1 with _ | off <;> simp [hr]

/-- C2 (amended): for every buffer reachable by construction, append,
set_size, shrink_to_fit, change_capacity and write_into_buffer, in which
each set_size call requests at most the capacity current at the time of the
call, the invariant 0 ≤ size ≤ capacity holds (0 ≤ size is inherent in the
Nat model; the original claim without the set_size restriction is refuted
by the counterexample below, since set_size stores the requested size
unchecked). -/
theorem buffer_invariant_reachable (b : IBuffer) (h : ReachableOK b) :
    b.size ≤ b.capacity := by
  induction h with
  | create0 => simp [Create_strong_buffer]
  | createN n g => simp [Create_strong_buffer_sized]
  | copyFrom D n g => simp [Copy_strong_buffer_from_data]
  | wrapWeak D n => simp [Wrap_weak_buffer_fom_data]
  | app1 b S ok fr _ ih => exact append_alloc_inv b S ok fr ih
  | app2 b D S ok fr _ ih => exact append_data_inv b D S ok fr ih
  | setSize b n _ hn => simpa [set_size] using hn
  | shrink b ok fr _ ih => simpa [shrink_to_fit] using change_capacity_inv b b.size ok fr ih
  | chCap b c ok fr _ ih => exact change_capacity_inv b c ok fr ih
  | writeInto b n ok fr _ ih =>
      cases hS : b.strength
      · rw [write_into_weak b n ok fr hS]
        exact ih
      · rw [write_into_strong b n ok fr hS]
        exact append_alloc_inv b n ok fr ih

/-- Witness for the amended C2 theorem at a concrete reachable buffer. -/
theorem buffer_invariant_reachable_witness :
    ((set_size (Copy_strong_buffer_from_data (fun _ => 1) 3 (fun _ => 0)) 2).2).size ≤
    ((set_size (Copy_strong_buffer_from_data (fun _ => 1) 3 (fun _ => 0)) 2).2).capacity :=
  buffer_invariant_reachable _
    (ReachableOK.setSize _ 2
      (ReachableOK.copyFrom (fun _ => 1) 3 (fun _ => 0)) (by decide))

/-- Counterexample to C2 as stated: set_size (IrisBuffer.cpp lines 204-208)
stores the requested size without any capacity check, so a strong buffer of
capacity 3 ends with size 5 > capacity 3. -/
theorem set_size_breaks_invariant :
    (set_size (Copy_strong_buffer_from_data (fun _ => 1) 3 (fun _ => 0)) 5).2.capacity <
    (set_size (Copy_strong_buffer_from_data (fun _ => 1) 3 (fun _ => 0)) 5).2.size := by
  decide

/-- C1: evidence that the two-argument append is broken for STRONG buffers.
On a full strong buffer of size = capacity = 100, append of 10 bytes with a
succeeding reallocation returns IRIS_FAILURE anyway (the post-realloc check
size <= old-size always holds because change_capacity never increases the
size), and the change_capacity(available_bytes() + S) call it made has
already shrunk the buffer to capacity 10, truncating the size to 10 and
discarding the other 90 bytes (byte 50, originally 1, is gone): the claimed
append postconditions (bytes preserved and appended, failure only on
allocation failure) do not hold. -/
theorem append_data_growth_always_fails :
    (append_data (Copy_strong_buffer_from_data (fun _ => 1) 100 (fun _ => 9))
       (fun _ => 65) 10 true (fun _ => 0)).1 = IRIS_FAILURE ∧
    (append_data (Copy_strong_buffer_from_data (fun _ => 1) 100 (fun _ => 9))
       (fun _ => 65) 10 true (fun _ => 0)).2.size = 10 ∧
    (append_data (Copy_strong_buffer_from_data (fun _ => 1) 100 (fun _ => 9))
       (fun _ => 65) 10 true (fun _ => 0)).2.capacity = 10 ∧
    (append_data (Copy_strong_buffer_from_data (fun _ => 1) 100 (fun _ => 9))
       (fun _ => 65) 10 true (fun _ => 0)).2.data 50 = 0 ∧
    (Copy_strong_buffer_from_data (fun _ => 1) 100 (fun _ => 9)).data 50 = 1 ∧
    (append_data (Copy_strong_buffer_from_data (fun _ => 1) 0 (fun _ => 9))
       (fun _ => 65) 1 true (fun _ => 0)).1 = IRIS_FAILURE := by
  decide

/-- C7: for every WEAK buffer, change_capacity and shrink_to_fit fail with
IRIS_FAILURE and leave the buffer untouched; an append of n bytes with
size + n > capacity fails recoverably (null pointer resp. IRIS_FAILURE)
without modifying the buffer; and no operation (append of any size,
set_size, write_into_buffer) changes the capacity fixed at construction. -/
theorem weak_buffer_never_reallocates (b : IBuffer) (c S n : Nat)
    (D : Nat → Nat) (ok : Bool) (fr : Nat → Nat)
    (hW : b.strength = REFERENCE_WEAK)
    (hOver : b.capacity < b.size + n) (hn : 0 < n) :
    change_capacity b c ok fr = (IRIS_FAILURE, b) ∧
    shrink_to_fit b ok fr = (IRIS_FAILURE, b) ∧
    append_alloc b n ok fr = (none, b) ∧
    append_data b D n ok fr = (IRIS_FAILURE, b) ∧
    (append_alloc b S ok fr).2.capacity = b.capacity ∧
    (append_data b D S ok fr).2.capacity = b.capacity ∧
    (set_size b S).2.capacity = b.capacity ∧
    (Buffer_write_into_buffer b S ok fr).2 = b := by
  have hAvLt : available_bytes b < n := by
    unfold available_bytes
    split <;> omega
  refine ⟨change_capacity_weak b c ok fr hW, ?_, ?_, ?_, ?_, ?_, rfl,
    write_into_weak b S ok fr hW⟩
  · unfold shrink_to_fit
    exact change_capacity_weak b b.size ok fr hW
  · unfold append_alloc
    simp only
    rw [if_pos hAvLt, change_capacity_weak b _ ok fr hW]
    simp
  · unfold append_data
    simp only
    rw [if_pos hAvLt, change_capacity_weak b _ ok fr hW]
    simp
  · unfold append_alloc
    simp only
    split
    · rw [change_capacity_weak b _ ok fr hW]
      simp
    · rfl
  · unfold append_data
    simp only
    split
    · rw [change_capacity_weak b _ ok fr hW]
      simp
    · rfl

/-- Witness for the C7 theorem at a concrete weak buffer of capacity 4. -/
theorem weak_buffer_never_reallocates_witness :
    change_capacity (Wrap_weak_buffer_fom_data (fun _ => 1) 4) 9 true (fun _ => 0) =
      (IRIS_FAILURE, Wrap_weak_buffer_fom_data (fun _ => 1) 4) ∧
    shrink_to_fit (Wrap_weak_buffer_fom_data (fun _ => 1) 4) true (fun _ => 0) =
      (IRIS_FAILURE, Wrap_weak_buffer_fom_data (fun _ => 1) 4) ∧
    append_alloc (Wrap_weak_buffer_fom_data (fun _ => 1) 4) 5 true (fun _ => 0) =
      (none, Wrap_weak_buffer_fom_data (fun _ => 1) 4) ∧
    append_data (Wrap_weak_buffer_fom_data (fun _ => 1) 4) (fun _ => 0) 5 true (fun _ => 0) =
      (IRIS_FAILURE, Wrap_weak_buffer_fom_data (fun _ => 1) 4) ∧
    (append_alloc (Wrap_weak_buffer_fom_data (fun _ => 1) 4) 2 true (fun _ => 0)).2.capacity =
      (Wrap_weak_buffer_fom_data (fun _ => 1) 4).capacity ∧
    (append_data (Wrap_weak_buffer_fom_data (fun _ => 1) 4) (fun _ => 0) 2 true
      (fun _ => 0)).2.capacity = (Wrap_weak_buffer_fom_data (fun _ => 1) 4).capacity ∧
    (set_size (Wrap_weak_buffer_fom_data (fun _ => 1) 4) 2).2.capacity =
      (Wrap_weak_buffer_fom_data (fun _ => 1) 4).capacity ∧
    (Buffer_write_into_buffer (Wrap_weak_buffer_fom_data (fun _ => 1) 4) 2 true
      (fun _ => 0)).2 = Wrap_weak_buffer_fom_data (fun _ => 1) 4 :=
  weak_buffer_never_reallocates (Wrap_weak_buffer_fom_data (fun _ => 1) 4) 9 2 5
    (fun _ => 0) true (fun _ => 0) rfl (by decide) (by decide)

/-- C9: the CacheDataAccess enumeration gives CACHE_ACCESS_COMPRESS_TILE
and CACHE_ACCESS_DECOMPRESS_TILE the same numeric value 0, and
CACHE_ACCESS_DIRECT_NO_CODEC the value 1, so the compress and decompress
actions are indistinguishable by tag value. -/
theorem cache_access_tags_collide :
    CACHE_ACCESS_COMPRESS_TILE = 0 ∧
    CACHE_ACCESS_DECOMPRESS_TILE = 0 ∧
    CACHE_ACCESS_DIRECT_NO_CODEC = 1 ∧
    CACHE_ACCESS_COMPRESS_TILE = CACHE_ACCESS_DECOMPRESS_TILE := by
  decide

/-- C10: the associated-image orientation tags are exactly the IEEE 754
half-precision bit patterns of the rotation angles: 0x0000 decodes to 0,
0x55A0 to 90, 0x59A0 to 180 and 0x5C38 to 270. -/
theorem orientation_tags_are_half_floats :
    half_bits_to_rat ORIENTATION_0 = some 0 ∧
    half_bits_to_rat ORIENTATION_90 = some 90 ∧
    half_bits_to_rat ORIENTATION_180 = some 180 ∧
    half_bits_to_rat ORIENTATION_270 = some 270 := by
  refine ⟨?_, ?_, ?_, ?_⟩ <;>
    · simp only [half_bits_to_rat, ORIENTATION_0, ORIENTATION_90, ORIENTATION_180,
        ORIENTATION_270]
      norm_num

/-- C6: the guard assertions of the downsampling entry points check
size <= 256*256*channels, the reverse of the claimed precondition
size >= 256*256*channels, so a call whose buffers satisfy the claimed
precondition strictly (source one byte larger than a tile) fails the
source guard of both entry points instead of reaching the kernel. -/
theorem downsample_guards_reversed :
    TILE_PIX_AREA * 3 ≤
      (Wrap_weak_buffer_fom_data (fun _ => 0) (TILE_PIX_AREA * 3 + 1)).size ∧
    TILE_PIX_AREA * 3 ≤
      (Wrap_weak_buffer_fom_data (fun _ => 0) (TILE_PIX_AREA * 3)).size ∧
    convOk (Downsample_into_tile_2x_avg 8
      (Wrap_weak_buffer_fom_data (fun _ => 0) (TILE_PIX_AREA * 3 + 1))
      (Wrap_weak_buffer_fom_data (fun _ => 0) (TILE_PIX_AREA * 3)) 0 0 3) = false ∧
    guardOk (Downsample_into_tile_4x_avg_guard
      (Wrap_weak_buffer_fom_data (fun _ => 0) (TILE_PIX_AREA * 3 + 1))
      (Wrap_weak_buffer_fom_data (fun _ => 0) (TILE_PIX_AREA * 3)) 3) = false := by
  refine ⟨by decide, by decide, ?_, by decide⟩
  unfold Downsample_into_tile_2x_avg
  rw [if_neg (by decide)]
  rfl

/-- Counterexample to C8 as stated: Convert_tile_format checks
s_fmt == d_fmt before validating the formats (IrisSIMD.cpp line 321), so a
call with FORMAT_UNDEFINED as BOTH source and destination takes the
equal-format fast path and succeeds instead of reporting an error. -/
theorem convert_undefined_to_undefined_succeeds :
    convOk (Convert_tile_format 8 (Wrap_weak_buffer_fom_data (fun _ => 3) 5)
      FORMAT_UNDEFINED FORMAT_UNDEFINED none (fun _ => 0) false) = true := by
  rfl

/-- C8 (amended): Convert_tile_format with FORMAT_UNDEFINED as the source or
destination format reports an error, unless the two formats are equal, in
which case the equal-format fast path (which runs before the format
validation) applies: the call succeeds, the result has the source's size,
and its first size bytes are the source's bytes (copied, or the source
aliased). -/
theorem convert_undefined_and_fastpath (NN : Nat) (src : IBuffer)
    (odst : Option IBuffer) (g : Nat → Nat) (al : Bool) (s d : Format) :
    ((s = FORMAT_UNDEFINED ∨ d = FORMAT_UNDEFINED) → s ≠ d →
      convOk (Convert_tile_format NN src s d odst g al) = false) ∧
    (s = d →
      convOk (Convert_tile_format NN src s d odst g al) = true ∧
      convSize (Convert_tile_format NN src s d odst g al) = src.size ∧
      ∀ i, i < src.size →
        convData (Convert_tile_format NN src s d odst g al) i = src.data i) := by
  constructor
  · intro hor hne
    unfold Convert_tile_format
    rw [if_neg hne]
    rcases hor with hs | hd
    · subst hs
      rfl
    · subst hd
      cases s <;> rfl
  · intro hsd
    subst hsd
    unfold Convert_tile_format
    rw [if_pos rfl]
    cases odst with
    | none => exact ⟨rfl, rfl, fun i _ => rfl⟩
    | some dd =>
      by_cases hc : dd.capacity < src.size
      · simp only [if_pos hc]
        exact ⟨rfl, rfl, fun i _ => rfl⟩
      · simp only [if_neg hc]
        refine ⟨rfl, rfl, fun i hi => ?_⟩
        simp [convData, hi]

/-- Witness for the amended C8 theorem: the fast path succeeds on equal
formats, and an unequal pair with an undefined source fails. -/
theorem convert_undefined_and_fastpath_witness :
    convOk (Convert_tile_format 8 (Wrap_weak_buffer_fom_data (fun _ => 3) 5)
      FORMAT_R8G8B8 FORMAT_R8G8B8 none (fun _ => 0) false) = true ∧
    convOk (Convert_tile_format 8 (Wrap_weak_buffer_fom_data (fun _ => 3) 5)
      FORMAT_UNDEFINED FORMAT_R8G8B8 none (fun _ => 0) false) = false :=
  ⟨((convert_undefined_and_fastpath 8 (Wrap_weak_buffer_fom_data (fun _ => 3) 5)
      none (fun _ => 0) false FORMAT_R8G8B8 FORMAT_R8G8B8).2 rfl).1,
   (convert_undefined_and_fastpath 8 (Wrap_weak_buffer_fom_data (fun _ => 3) 5)
      none (fun _ => 0) false FORMAT_UNDEFINED FORMAT_R8G8B8).1
      (Or.inl rfl) (by decide)⟩

lemma expandScalarLoop_untouched (src : Nat → Nat) (i : Nat) :
    ∀ dst b, i < b / 4 → expandScalarLoop src i dst b = dst b := by
  induction i with
  | zero =>
      intro dst b h
      unfold expandScalarLoop expandPixel
      rw [if_neg (by omega)]
  | succ i ih =>
      intro dst b h
      unfold expandScalarLoop
      rw [ih _ b (by omega)]
      unfold expandPixel
      rw [if_neg (by omega)]

lemma expandVecLoop_untouched (NN : Nat) (src : Nat → Nat) (fuel : Nat) :
    ∀ i dst b, i + NN ≤ b / 4 →
      (expandVecLoop NN src fuel i dst).1 b = dst b ∧
      (expandVecLoop NN src fuel i dst).2 ≤ i := by
  induction fuel with
  | zero =>
      intro i dst b _
      exact ⟨rfl, le_rfl⟩
  | succ fuel ih =>
      intro i dst b h
      unfold expandVecLoop
      by_cases hN : NN ≤ i
      · rw [if_pos hN]
        obtain ⟨h1, h2⟩ := ih (i - NN) (expandChunk src i NN dst) b (by omega)
        refine ⟨?_, by omega⟩
        rw [h1]
        unfold expandChunk
        rw [if_neg (by omega)]
      · rw [if_neg hN]
        exact ⟨rfl, le_rfl⟩

lemma expand_missed_last_pixel (NN : Nat) (src dst : Nat → Nat)
    (h1 : 1 ≤ NN) (h2 : NN ≤ 65535) (b : Nat) (hb : b / 4 = 65535) :
    EXPAND_TILE_ADD_ALPHA_8bit NN src dst b = dst b := by
  unfold EXPAND_TILE_ADD_ALPHA_8bit
  have hi0 : TILE_PIX_AREA - (NN + 1) = 65535 - NN := by
    unfold TILE_PIX_AREA
    omega
  obtain ⟨hv1, hv2⟩ := expandVecLoop_untouched NN src (TILE_PIX_AREA - (NN + 1) + 1)
    (TILE_PIX_AREA - (NN + 1)) dst b (by omega)
  rw [expandScalarLoop_untouched src _ _ b (by omega), hv1]

/-- C3: evidence that the alpha-expansion kernel never writes the last tile
pixel.  The vector loop of EXPAND_TILE_ADD_ALPHA_8bit starts at pixel
TILE_PIX_AREA - (N + 1) and so covers at most pixels up to 65534, and the
scalar tail only covers pixels below the lane count, so for every lane
count the conversion of a 256x256 R8G8B8 tile to R8G8B8A8 leaves all four
bytes of pixel 65535 of the freshly allocated destination equal to the
uninitialized malloc contents; in particular the alpha byte of pixel 65535
is not 0xFF and the round trip back to R8G8B8 cannot restore the source
there. -/
theorem expand_alpha_leaves_last_pixel_uninitialized (NN : Nat) (src : IBuffer)
    (garbage : Nat → Nat) (h1 : 1 ≤ NN) (h2 : NN ≤ 65535) :
    convData (Convert_tile_format NN src FORMAT_R8G8B8 FORMAT_R8G8B8A8 none garbage false)
      (4 * 65535 + 3) = garbage (4 * 65535 + 3) := by
  show EXPAND_TILE_ADD_ALPHA_8bit NN src.data garbage (4 * 65535 + 3) =
    garbage (4 * 65535 + 3)
  exact expand_missed_last_pixel NN src.data garbage h1 h2 _ (by norm_num)

/-- Witness for the C3 theorem at lane count 16 with zeroed fresh memory:
the intermediate alpha byte of pixel 65535 is 0, not the claimed 0xFF. -/
theorem expand_alpha_leaves_last_pixel_uninitialized_witness :
    convData (Convert_tile_format 16
      (Wrap_weak_buffer_fom_data (fun _ => 7) TILE_PIX_BYTES_RGB)
      FORMAT_R8G8B8 FORMAT_R8G8B8A8 none (fun _ => 0) false) (4 * 65535 + 3) = 0 ∧
    (0 : Nat) ≠ 255 :=
  ⟨expand_alpha_leaves_last_pixel_uninitialized 16
      (Wrap_weak_buffer_fom_data (fun _ => 7) TILE_PIX_BYTES_RGB)
      (fun _ => 0) (by decide) (by decide),
   by decide⟩

lemma swap4ScalarLoop_untouched (fuel : Nat) :
    ∀ i s b, b < i → swap4ScalarLoop fuel i s b = s b := by
  induction fuel with
  | zero =>
      intro i s b _
      rfl
  | succ fuel ih =>
      intro i s b h
      unfold swap4ScalarLoop
      by_cases hc : i < TILE_PIX_AREA * 4
      · rw [if_pos hc, ih (i + 4) _ b (by omega)]
        unfold swap4PixelScalar
        rw [if_neg (by omega), if_neg (by omega)]
      · rw [if_neg hc]

lemma swap4VecLoop_untouched (NN : Nat) (fuel : Nat) :
    ∀ i s b, b < i →
      (swap4VecLoop NN fuel i s).1 b = s b ∧ i ≤ (swap4VecLoop NN fuel i s).2 := by
  induction fuel with
  | zero =>
      intro i s b _
      exact ⟨rfl, le_rfl⟩
  | succ fuel ih =>
      intro i s b h
      unfold swap4VecLoop
      by_cases hc : i + NN < TILE_PIX_AREA * 4
      · rw [if_pos hc]
        obtain ⟨h1, h2⟩ := ih (i + NN * 4) (swap4Chunk s i NN) b (by omega)
        refine ⟨?_, by omega⟩
        rw [h1]
        unfold swap4Chunk
        rw [if_neg (by omega)]
      · rw [if_neg hc]
        exact ⟨rfl, le_rfl⟩

lemma swap4_byte0 (NN : Nat) (s : Nat → Nat) (h1 : 1 ≤ NN) (h2 : NN ≤ 65535) :
    SWAP_TILE_4_CHANNELS_0_2_8bit NN s 0 = s 2 := by
  show swap4ScalarLoop (TILE_PIX_AREA * 4)
      (swap4VecLoop NN (TILE_PIX_AREA * 4) 0 s).2
      (swap4VecLoop NN (TILE_PIX_AREA * 4) 0 s).1 0 = s 2
  rw [show TILE_PIX_AREA * 4 = 262143 + 1 by decide]
  unfold swap4VecLoop
  rw [if_pos (show 0 + NN < TILE_PIX_AREA * 4 by unfold TILE_PIX_AREA; omega)]
  obtain ⟨hv1, hv2⟩ := swap4VecLoop_untouched NN 262143 (0 + NN * 4) (swap4Chunk s 0 NN)
    0 (by omega)
  rw [swap4ScalarLoop_untouched (262143 + 1)
      ((swap4VecLoop NN 262143 (0 + NN * 4) (swap4Chunk s 0 NN)).2)
      ((swap4VecLoop NN 262143 (0 + NN * 4) (swap4Chunk s 0 NN)).1) 0 (by omega), hv1]
  unfold swap4Chunk
  rw [if_pos (by omega)]
  norm_num

lemma convert_rgba_to_bgra_none (NN : Nat) (src : IBuffer) (garbage : Nat → Nat) :
    Convert_tile_format NN src FORMAT_R8G8B8A8 FORMAT_B8G8R8A8 none garbage false =
    Except.ok
      { strength := REFERENCE_STRONG, capacity := TILE_PIX_AREA * 4,
        size := TILE_PIX_AREA * 4,
        data := SWAP_TILE_4_CHANNELS_0_2_8bit NN
          (fun i => if i < (0 : Nat) then src.data i else garbage i) } := by
  rfl

lemma convert_bgra_to_rgba_none (NN : Nat) (src : IBuffer) (garbage : Nat → Nat) :
    Convert_tile_format NN src FORMAT_B8G8R8A8 FORMAT_R8G8B8A8 none garbage false =
    Except.ok
      { strength := REFERENCE_STRONG, capacity := TILE_PIX_AREA * 4,
        size := TILE_PIX_AREA * 4,
        data := SWAP_TILE_4_CHANNELS_0_2_8bit NN
          (fun i => if i < (0 : Nat) then src.data i else garbage i) } := by
  rfl

/-- C4: evidence that the channel-swap conversion with no optional
destination copies nothing from the source.  A fresh destination buffer has
size 0, and the pre-swap copy is memcpy(dst, src, dst->size()), so zero
bytes are copied; the swap kernel then permutes the uninitialized malloc
contents.  Byte 0 of the single conversion is the uninitialized byte g1 2,
and byte 0 of the full round trip is the uninitialized byte g2 2 of the
second fresh buffer, independent of the input tile, so the round trip does
not reproduce the input. -/
theorem channel_swap_roundtrip_copies_nothing (NN : Nat) (b : IBuffer)
    (g1 g2 : Nat → Nat) (h1 : 1 ≤ NN) (h2 : NN ≤ 65535) :
    convData (Convert_tile_format NN b FORMAT_R8G8B8A8 FORMAT_B8G8R8A8 none g1 false) 0
      = g1 2 ∧
    convData (c4RoundTrip NN b g1 g2) 0 = g2 2 := by
  constructor
  · rw [convert_rgba_to_bgra_none]
    show SWAP_TILE_4_CHANNELS_0_2_8bit NN _ 0 = g1 2
    rw [swap4_byte0 NN _ h1 h2]
    norm_num
  · unfold c4RoundTrip
    rw [convert_rgba_to_bgra_none]
    simp only
    rw [convert_bgra_to_rgba_none]
    show SWAP_TILE_4_CHANNELS_0_2_8bit NN _ 0 = g2 2
    rw [swap4_byte0 NN _ h1 h2]
    norm_num

/-- Witness for the C4 theorem at lane count 16 with an input tile of bytes
7 and zeroed fresh memory: the round trip returns byte 0 as 0, not the
input byte 7. -/
theorem channel_swap_roundtrip_copies_nothing_witness :
    convData (Convert_tile_format 16
      (Wrap_weak_buffer_fom_data (fun _ => 7) TILE_PIX_BYTES_RGBA)
      FORMAT_R8G8B8A8 FORMAT_B8G8R8A8 none (fun _ => 1) false) 0 = (fun _ => (1 : Nat)) 2 ∧
    convData (c4RoundTrip 16 (Wrap_weak_buffer_fom_data (fun _ => 7) TILE_PIX_BYTES_RGBA)
      (fun _ => 1) (fun _ => 0)) 0 = (fun _ => (0 : Nat)) 2 :=
  channel_swap_roundtrip_copies_nothing 16
    (Wrap_weak_buffer_fom_data (fun _ => 7) TILE_PIX_BYTES_RGBA)
    (fun _ => 1) (fun _ => 0) (by decide) (by decide)

set_option maxRecDepth 8000

set_option maxHeartbeats 1600000

lemma ds2xScalarLoop_untouched (CH : Nat) (src : Nat → Nat) (y base : Nat)
    (fuel : Nat) :
    ∀ x dst b, b < base + x → ds2xScalarLoop CH src y base fuel x dst b = dst b := by
  induction fuel with
  | zero =>
      intro x dst b _
      rfl
  | succ fuel ih =>
      intro x dst b h
      unfold ds2xScalarLoop
      by_cases hc : x < 128 * CH
      · rw [if_pos hc, ih (x + CH) _ b (by omega)]
        unfold ds2xScalarWrite
        rw [if_neg (by omega)]
      · rw [if_neg hc]

lemma ds2xVecLoop_untouched (CH NN : Nat) (src : Nat → Nat) (y base : Nat)
    (fuel : Nat) :
    ∀ x dst b, b < base + x →
      (ds2xVecLoop CH NN src y base fuel x dst).1 b = dst b ∧
      x ≤ (ds2xVecLoop CH NN src y base fuel x dst).2 := by
  induction fuel with
  | zero =>
      intro x dst b _
      exact ⟨rfl, le_rfl⟩
  | succ fuel ih =>
      intro x dst b h
      unfold ds2xVecLoop
      by_cases hc : x * NN < 128 * CH - NN
      · rw [if_pos hc]
        obtain ⟨ih1, ih2⟩ := ih (x + NN) (ds2xChunk CH NN src y base x dst) b (by omega)
        refine ⟨?_, by omega⟩
        rw [ih1]
        unfold ds2xChunk
        rw [if_neg (by omega)]
      · rw [if_neg hc]
        exact ⟨rfl, le_rfl⟩

lemma ds2xVecLoop_first_chunk (CH NN : Nat) (src : Nat → Nat) (y base : Nat)
    (fuel x : Nat) (dst : Nat → Nat) (b : Nat)
    (hb : b < base + x + NN) (hc : x * NN < 128 * CH - NN) (hfuel : 1 ≤ fuel) :
    (ds2xVecLoop CH NN src y base fuel x dst).1 b = ds2xChunk CH NN src y base x dst b ∧
    x + NN ≤ (ds2xVecLoop CH NN src y base fuel x dst).2 := by
  cases fuel with
  | zero => omega
  | succ fuel =>
      unfold ds2xVecLoop
      rw [if_pos hc]
      exact ds2xVecLoop_untouched CH NN src y base fuel (x + NN)
        (ds2xChunk CH NN src y base x dst) b (by omega)

lemma ds2xRow_untouched (CH NN : Nat) (src : Nat → Nat) (o_y o_x y : Nat)
    (dst : Nat → Nat) (b : Nat)
    (h : b < (y + o_y) * (TILE_PIX_LENGTH * CH) + o_x * CH) :
    ds2xRow CH NN src o_y o_x y dst b = dst b := by
  show ds2xScalarLoop CH src y ((y + o_y) * (TILE_PIX_LENGTH * CH) + o_x * CH) (128 * CH)
      (ds2xVecLoop CH NN src y ((y + o_y) * (TILE_PIX_LENGTH * CH) + o_x * CH)
        (128 * CH) 0 dst).2
      (ds2xVecLoop CH NN src y ((y + o_y) * (TILE_PIX_LENGTH * CH) + o_x * CH)
        (128 * CH) 0 dst).1 b = dst b
  obtain ⟨hv1, hv2⟩ := ds2xVecLoop_untouched CH NN src y
    ((y + o_y) * (TILE_PIX_LENGTH * CH) + o_x * CH) (128 * CH) 0 dst b (by omega)
  rw [ds2xScalarLoop_untouched CH src y _ (128 * CH)
    ((ds2xVecLoop CH NN src y ((y + o_y) * (TILE_PIX_LENGTH * CH) + o_x * CH)
      (128 * CH) 0 dst).2)
    ((ds2xVecLoop CH NN src y ((y + o_y) * (TILE_PIX_LENGTH * CH) + o_x * CH)
      (128 * CH) 0 dst).1) b (by omega), hv1]

lemma ds2xYLoop_untouched (CH NN : Nat) (src : Nat → Nat) (o_y o_x : Nat)
    (count : Nat) :
    ∀ y dst b, b < (y + o_y) * (TILE_PIX_LENGTH * CH) + o_x * CH →
      ds2xYLoop CH NN src o_y o_x count y dst b = dst b := by
  induction count with
  | zero =>
      intro y dst b _
      rfl
  | succ count ih =>
      intro y dst b h
      unfold ds2xYLoop
      have hmono := Nat.mul_le_mul_right (TILE_PIX_LENGTH * CH)
        (show y + o_y ≤ y + 1 + o_y by omega)
      rw [ih (y + 1) _ b (by omega)]
      exact ds2xRow_untouched CH NN src o_y o_x y dst b h

lemma convData_ok_data (X : IBuffer) (D : Nat → Nat) (i : Nat) :
    convData (Except.ok { X with data := D }) i = D i := rfl

/-- C5: evidence that the vectorized path of DOWNSAMPLE_INTO_TILE_2X_AVG
computes the wrong source offsets.  For lane count 8 and 4 channels, output
byte 4 (pixel 1 of row 0, red channel) is produced by the first vector
iteration as lane j = 4, which reads row0[4], row0[8], row1[4], row1[8]
instead of the channel-correct row0[8], row0[12], row1[8], row1[12].  On an
all-100 source with a single outlier byte 200 at row0[12] (source pixel
(0,3), red channel, covered by output pixel (0,1)), the kernel writes 100
while the box filter the spec states yields (100*3 + 200 + 2) >> 2 = 125. -/
theorem downsample2x_vector_path_wrong :
    convData (Downsample_into_tile_2x_avg 8
      (Wrap_weak_buffer_fom_data (fun i => if i = 12 then 200 else 100) (TILE_PIX_AREA * 4))
      (Wrap_weak_buffer_fom_data (fun _ => 0) (TILE_PIX_AREA * 4)) 0 0 4) 4 = 100 ∧
    spec_box_filter_2x 4 (fun i => if i = 12 then 200 else 100) 0 1 0 = 125 := by
  constructor
  · have hred : Downsample_into_tile_2x_avg 8
        (Wrap_weak_buffer_fom_data (fun i => if i = 12 then 200 else 100) (TILE_PIX_AREA * 4))
        (Wrap_weak_buffer_fom_data (fun _ => 0) (TILE_PIX_AREA * 4)) 0 0 4 =
        Except.ok { Wrap_weak_buffer_fom_data (fun _ => 0) (TILE_PIX_AREA * 4) with
          data := DOWNSAMPLE_INTO_TILE_2X_AVG 4 8
            (fun i => if i = 12 then 200 else 100) (fun _ => 0) 0 0 } := by
      unfold Downsample_into_tile_2x_avg
      rw [if_pos (by decide), if_pos (by decide)]
      rfl
    rw [hred, convData_ok_data]
    unfold DOWNSAMPLE_INTO_TILE_2X_AVG
    rw [show (0 * 128) % 256 = 0 from by norm_num]
    rw [show (128 : Nat) = 127 + 1 from rfl]
    unfold ds2xYLoop
    rw [ds2xYLoop_untouched 4 8 (fun i => if i = 12 then 200 else 100) 0 0 127 (0 + 1)
      (ds2xRow 4 8 (fun i => if i = 12 then 200 else 100) 0 0 0 (fun _ => 0)) 4
      (by norm_num [TILE_PIX_LENGTH])]
    simp only [ds2xRow]
    rw [show (0 + 0) * (TILE_PIX_LENGTH * 4) + 0 * 4 = 0 from by norm_num [TILE_PIX_LENGTH]]
    obtain ⟨hv1, hv2⟩ := ds2xVecLoop_first_chunk 4 8 (fun i => if i = 12 then 200 else 100)
      0 0 (128 * 4) 0 (fun _ => 0) 4 (by norm_num) (by norm_num) (by norm_num)
    rw [ds2xScalarLoop_untouched 4 (fun i => if i = 12 then 200 else 100) 0 0 (128 * 4)
      ((ds2xVecLoop 4 8 (fun i => if i = 12 then 200 else 100) 0 0 (128 * 4) 0
        (fun _ => 0)).2)
      ((ds2xVecLoop 4 8 (fun i => if i = 12 then 200 else 100) 0 0 (128 * 4) 0
        (fun _ => 0)).1) 4 (by omega), hv1]
    unfold ds2xChunk
    rw [if_pos (show (0:Nat) + 0 ≤ 4 ∧ 4 < 0 + 0 + 8 by norm_num)]
    norm_num [TILE_PIX_LENGTH]
  · unfold spec_box_filter_2x
    norm_num [TILE_PIX_LENGTH]

end IrisSpec
